import Mathlib

/-!
Verification of the update-monitoring engine of `arch-updates-rs`
(`src/main.rs`), a tray-icon agent that periodically counts pending Arch
Linux package updates.

The development shallowly embeds the parts of the program that the
properties below are about:

* the severity classification of an update count against the two
  configured thresholds (the icon-selection chain in `setup_tray_icon`,
  `src/main.rs` lines 408-445);
* the `Debouncer` used by the filesystem watcher (`src/main.rs`
  lines 103-122), with `std::time::Instant` modelled as a millisecond
  timestamp in `Nat` (`Instant` is monotone and `duration_since`
  saturates at zero, which truncated `Nat` subtraction reproduces);
* `check_updates` (`src/main.rs` lines 262-288), modelled over an
  abstract record of one subprocess execution: whether the spawn
  succeeded, the sequence of line reads from the child's stdout, whether
  the `wait` call itself succeeded, and the child's exit status;
* the filesystem-watcher event handler (`src/main.rs` lines 199-216)
  and the channel it sends on;
* the main event loop (`src/main.rs` lines 221-257), modelled as a
  function from a FIFO queue of events to a trace of actions plus an
  exit condition, parameterised by an oracle giving the outcome of each
  successive `check_updates` invocation.  The loop is the single
  consumer of the channel and runs checks synchronously, so one loop
  iteration is one atomic step; `Event::Updating` handling appends a
  `Checking` event to the back of the queue, exactly as
  `tx.send(Event::Checking)` does on the channel the loop itself reads.
-/

/-!  ## Severity classification (icon selection, `setup_tray_icon`)  -/

/--
Severity tiers of an update count.  They are in one-to-one
correspondence with the icon chosen in `setup_tray_icon`
(`src/main.rs` lines 408-445): `none` is `NO_UPDATES_ICON_BYTES`,
`normal` is `UPDATES_ICON_BYTES`, `warning` is
`UPDATES_WARNING_LEVEL_ICON_BYTES`, `critical` is
`UPDATES_CRITICAL_LEVEL_ICON_BYTES`.
-/
inductive Severity
  | none
  | normal
  | warning
  | critical
deriving DecidableEq

/--
The classification chain of `setup_tray_icon` (`src/main.rs`
lines 410-445), with the icon constants replaced by the corresponding
`Severity` tier:

```
if num_of_updates == 0            { NO_UPDATES }
else if num_of_updates < config.warning_threshold  { UPDATES }
else if num_of_updates < config.critical_threshold { UPDATES_WARNING }
else                              { UPDATES_CRITICAL }
```

Counts and thresholds are `u32` in the source; comparisons on `u32`
agree with the same comparisons on `Nat`.
-/
def classify (num_of_updates warning_threshold critical_threshold : Nat) : Severity :=
  if num_of_updates = 0 then Severity.none
  else if num_of_updates < warning_threshold then Severity.normal
  else if num_of_updates < critical_threshold then Severity.warning
  else Severity.critical

/-!  ## Debouncer (`src/main.rs` lines 103-122)  -/

/--
The `Debouncer` struct (`src/main.rs` lines 103-106): the time of the
last accepted trigger and the minimum interval between accepted
triggers, both in milliseconds.
-/
structure Debouncer where
  last_trigger_time : Nat
  debounce_duration : Nat
deriving DecidableEq

/--
`Debouncer::debounce` (`src/main.rs` lines 114-121).  The source reads
the clock itself; here the current time is an explicit argument.
Returns the `bool` result of the source function together with the
updated struct: if at least `debounce_duration` has elapsed since
`last_trigger_time` the call fires and records `current_time`,
otherwise it is suppressed and the struct is unchanged.
-/
def Debouncer.debounce (d : Debouncer) (current_time : Nat) : Bool × Debouncer :=
  if current_time - d.last_trigger_time ≥ d.debounce_duration then
    (true, { d with last_trigger_time := current_time })
  else
    (false, d)

/--
The debounce interval the watcher thread constructs its `Debouncer`
with: `Debouncer::new(Duration::from_millis(1000))` (`src/main.rs`
line 197).
-/
def watcherDebounceMillis : Nat := 1000

/-!  ## Update checker (`check_updates`, `src/main.rs` lines 262-288)  -/

/--
Failure cases of `check_updates`.  The source reports errors through
`anyhow`; the three `bail!`/`?` sites are, in order of occurrence:
the spawn of the `checkupdates` child failing (line 265), a line read
from the child's stdout failing (line 276), and the `child.wait()` call
itself returning an I/O error (line 285).  Note that the *exit status*
returned by a successful `wait` is discarded by the source.
-/
inductive CheckError
  | spawnFailed
  | readFailed
  | waitFailed
deriving DecidableEq

/-- One iteration of `reader.lines()`: either a line or a read error. -/
inductive LineRead
  | ok (line : String)
  | readErr
deriving DecidableEq

/--
Abstract record of one execution of the external `checkupdates`
subprocess, holding everything `check_updates` can observe: whether
`Command::spawn` succeeded, the successive results of reading lines
from the child's stdout, whether `child.wait()` itself succeeded as an
I/O call, and the child's exit status (success or failure).
-/
structure ProcExec where
  spawn_ok : Bool
  lines : List LineRead
  wait_ok : Bool
  exit_success : Bool
deriving DecidableEq

/--
The line-collection loop of `check_updates` (`src/main.rs`
lines 270-283): each successfully read line is pushed onto `updates`;
the first failed read aborts the whole function with an error.  (The
source's `String::from_utf8(line.into_bytes())?` cannot fail, since
`line` is already a `String`.)
-/
def collectLines : List LineRead → Except CheckError (List String)
  | [] => Except.ok []
  | LineRead.readErr :: _ => Except.error CheckError.readFailed
  | LineRead.ok line :: rest =>
    match collectLines rest with
    | Except.ok updates => Except.ok (line :: updates)
    | Except.error e => Except.error e

/--
`check_updates` (`src/main.rs` lines 262-288) over a `ProcExec`:
spawn failure aborts first; then the stdout lines are collected, a read
failure aborting; then `child.wait()?` propagates only an I/O failure
of the wait call itself — the exit status it returns on success is
discarded, so `e.exit_success` is never consulted.
-/
def check_updates (e : ProcExec) : Except CheckError (List String) :=
  if e.spawn_ok then
    match collectLines e.lines with
    | Except.error err => Except.error err
    | Except.ok updates =>
      if e.wait_ok then Except.ok updates else Except.error CheckError.waitFailed
  else
    Except.error CheckError.spawnFailed

/-!  ## Events and channels  -/

/--
The `Event` enum (`src/main.rs` lines 37-42): `Updates(Vec<String>)`,
`Checking`, `Updating`, `Shutdown`.
-/
inductive Event
  | updates (list_of_updates : List String)
  | checking
  | updating
  | shutdown
deriving DecidableEq

/--
The two `mpsc` channels events are sent on: `app` is the channel
created in `main` (`src/main.rs` line 151) whose receiver the event
loop consumes, fed by the timer thread, the signal thread and `main`
itself; `tray` is the channel created in `setup_tray_icon`
(`src/main.rs` line 352) whose receiver the glib timeout closure of the
tray-icon thread consumes.
-/
inductive Chan
  | app
  | tray
deriving DecidableEq

/-!  ## Filesystem watch source (`src/main.rs` lines 180-217)  -/

/--
The kinds of `notify` filesystem events the watcher thread
distinguishes (`src/main.rs` lines 202-210): `Create(File)`,
`Create(Folder)`, `Access(Close(Write))`, and everything else.
-/
inductive NotifyKind
  | createFile
  | createFolder
  | closeWrite
  | otherKind
deriving DecidableEq

/--
Whether a notification kind is matched by the accepting arm of the
watcher's `match event.kind` (`src/main.rs` lines 202-204).
-/
def acceptedKind : NotifyKind → Bool
  | NotifyKind.createFile => true
  | NotifyKind.createFolder => true
  | NotifyKind.closeWrite => true
  | NotifyKind.otherKind => false

/--
The watcher thread's handling of one successfully received filesystem
notification (`src/main.rs` lines 201-211): an accepted kind runs the
debouncer and, if it fires, sends `Event::Updating` on
`watcher_gtk_tx` — which is a clone of `tray_icon_tx` (`src/main.rs`
line 179), i.e. the tray-icon sink's channel, not the loop's own
channel.  Returns the updated debouncer and the send performed, if any.
-/
def watcherHandleEvent (deb : Debouncer) (now : Nat) (kind : NotifyKind) :
    Debouncer × Option (Chan × Event) :=
  if acceptedKind kind then
    let r := deb.debounce now
    if r.1 then (r.2, some (Chan.tray, Event.updating)) else (r.2, none)
  else
    (deb, none)

/--
The send the tray-icon sink's glib closure performs back into the
loop's channel when it handles an event (`src/main.rs` lines 392-494):
only the `Event::Updating` arm sends, forwarding `Event::Updating` on
`app_tx` (line 486) after switching to the updating icon.  Icon
conversion and rendering are external I/O and are assumed to succeed
here (on an icon failure the closure breaks without sending).
-/
def trayForward : Event → Option (Chan × Event)
  | Event.updating => some (Chan.app, Event.updating)
  | _ => none

/-!  ## Event loop (`src/main.rs` lines 219-257)  -/

/--
Outcome of one invocation of `check_updates` as observed by the event
loop: the list of update lines on success, or a `CheckError`.
-/
inductive CheckOutcome
  | ok (list_of_updates : List String)
  | err
deriving DecidableEq

/--
Observable steps of the event loop, in the order the loop body performs
them (`src/main.rs` lines 221-257): receiving an event from the
channel; sending an event on the tray-icon sink's channel; starting and
finishing a synchronous `check_updates` invocation; the
`thread::sleep(Duration::from_secs(5))` settle delay; sending an event
back into the loop's own channel (`tx.send`); logging a check failure;
and breaking out of the loop.
-/
inductive LoopAction
  | recv (e : Event)
  | traySend (e : Event)
  | checkStart
  | checkEnd (r : CheckOutcome)
  | sleep (seconds : Nat)
  | enqueue (e : Event)
  | logError
  | exitLoop
deriving DecidableEq

/-- How the event loop stopped consuming (or why it is still waiting). -/
inductive LoopExit
  | blockedEmpty
  | checkFailed
  | shutdownExit
deriving DecidableEq

/--
The settle delay before the follow-up check after a database change:
`thread::sleep(Duration::from_secs(5))` (`src/main.rs` line 250).
-/
def settleDelaySeconds : Nat := 5

/-- Number of `Event.updating` values in a queue (termination measure helper). -/
def countUpdating : List Event → Nat
  | [] => 0
  | Event.updating :: rest => countUpdating rest + 1
  | _ :: rest => countUpdating rest

theorem countUpdating_append_checking (q : List Event) :
    countUpdating (q ++ [Event.checking]) = countUpdating q := by
  induction q with
  | nil => rfl
  | cons e rest ih => cases e <;> simp [countUpdating, ih]

/--
The event loop of `main` (`src/main.rs` lines 221-257), run to
exhaustion of the queue.  The loop is the sole consumer of the `app`
channel and handles one event at a time, so the channel is modelled as
a FIFO queue; `oracle k` is the result of the `(k+1)`-st invocation of
`check_updates`.  The arms mirror the source `match event`:

* `Event::Checking`: send `Checking` to the tray channel, run
  `check_updates` synchronously; on `Ok` send `Updates(list)` to the
  tray channel and continue; on `Err` log and `break`;
* `Event::Updates(_)`: no-op, continue;
* `Event::Updating`: sleep 5 s, then `tx.send(Event::Checking)` —
  which appends a `Checking` event to the back of the loop's own queue
  — and continue;
* `Event::Shutdown`: `break`.

An empty queue corresponds to the loop blocking in `rx.recv()`
(`LoopExit.blockedEmpty`); the producers never drop their senders, so
the `Err(_)` arm of `rx.recv()` is unreachable.  The result is the
trace of actions performed and how (or whether) the loop stopped.
-/
def runLoop (oracle : Nat → CheckOutcome) (k : Nat) : List Event → List LoopAction × LoopExit
  | [] => ([], LoopExit.blockedEmpty)
  | Event.checking :: rest =>
    match oracle k with
    | CheckOutcome.ok list_of_updates =>
      let t := runLoop oracle (k + 1) rest
      (LoopAction.recv Event.checking :: LoopAction.traySend Event.checking :: LoopAction.checkStart ::
        LoopAction.checkEnd (CheckOutcome.ok list_of_updates) ::
        LoopAction.traySend (Event.updates list_of_updates) :: t.1, t.2)
    | CheckOutcome.err =>
      ([LoopAction.recv Event.checking, LoopAction.traySend Event.checking, LoopAction.checkStart,
        LoopAction.checkEnd CheckOutcome.err, LoopAction.logError, LoopAction.exitLoop],
       LoopExit.checkFailed)
  | Event.updates list_of_updates :: rest =>
    let t := runLoop oracle k rest
    (LoopAction.recv (Event.updates list_of_updates) :: t.1, t.2)
  | Event.updating :: rest =>
    let t := runLoop oracle k (rest ++ [Event.checking])
    (LoopAction.recv Event.updating :: LoopAction.sleep settleDelaySeconds ::
      LoopAction.enqueue Event.checking :: t.1, t.2)
  | Event.shutdown :: _ =>
    ([LoopAction.recv Event.shutdown, LoopAction.exitLoop], LoopExit.shutdownExit)
termination_by q => q.length + countUpdating q
decreasing_by all_goals simp [countUpdating, countUpdating_append_checking]

/--
The trace block of one successful check cycle: the `Event::Checking`
arm of the loop with `check_updates` returning `Ok(list_of_updates)`.
-/
def checkBlock (list_of_updates : List String) : List LoopAction :=
  [LoopAction.recv Event.checking, LoopAction.traySend Event.checking, LoopAction.checkStart,
   LoopAction.checkEnd (CheckOutcome.ok list_of_updates),
   LoopAction.traySend (Event.updates list_of_updates)]

/--
The trace block of a failed check cycle: the `Event::Checking` arm of
the loop with `check_updates` returning an error, ending in `break`.
-/
def errBlock : List LoopAction :=
  [LoopAction.recv Event.checking, LoopAction.traySend Event.checking, LoopAction.checkStart,
   LoopAction.checkEnd CheckOutcome.err, LoopAction.logError, LoopAction.exitLoop]

/-- The events a trace records as received from the loop's channel, in order. -/
def consumedEvents : List LoopAction → List Event
  | [] => []
  | LoopAction.recv e :: tr => e :: consumedEvents tr
  | _ :: tr => consumedEvents tr

/-- Number of check invocations started in a trace. -/
def countCheckStarts : List LoopAction → Nat
  | [] => 0
  | LoopAction.checkStart :: tr => countCheckStarts tr + 1
  | _ :: tr => countCheckStarts tr

/-- Number of events a trace sends back into the loop's own channel. -/
def countEnqueues : List LoopAction → Nat
  | [] => 0
  | LoopAction.enqueue _ :: tr => countEnqueues tr + 1
  | _ :: tr => countEnqueues tr

/--
Single-flight discipline of a trace, checked by an automaton counting
the checks currently in flight: a check may start only when none is in
flight, and every check that ends was the one in flight.
-/
def checksBalanced : List LoopAction → Nat → Bool
  | [], _ => true
  | LoopAction.checkStart :: tr, opens => (opens == 0) && checksBalanced tr (opens + 1)
  | LoopAction.checkEnd _ :: tr, opens => (opens == 1) && checksBalanced tr (opens - 1)
  | _ :: tr, opens => checksBalanced tr opens

/-- An oracle under which no `check_updates` invocation fails. -/
def oracleAllOk (oracle : Nat → CheckOutcome) : Prop :=
  ∀ i, oracle i ≠ CheckOutcome.err

/-- The oracle whose every check succeeds with an empty update list. -/
def okEmptyOracle : Nat → CheckOutcome := fun _ => CheckOutcome.ok []

/-- The oracle whose every check fails. -/
def errOracle : Nat → CheckOutcome := fun _ => CheckOutcome.err

/--
The state of the loop's queue when the loop is entered: the spawned
producer threads have not yet sent anything deterministically, and the
main thread has just executed `tx.send(Event::Checking)` (`src/main.rs`
line 219), so the queue holds that one `Checking` event.
-/
def startupQueue : List Event := [Event.checking]

/-!  ## Loop lemmas  -/

/--
Every trace the event loop can produce obeys the single-flight
discipline: a check starts only when no check is in flight.  This holds
by the loop's construction — it is the sole consumer of the channel and
runs `check_updates` synchronously inside the `Event::Checking` arm.
-/
theorem runLoop_checksBalanced (oracle : Nat → CheckOutcome) (k : Nat) (q : List Event) :
    checksBalanced (runLoop oracle k q).1 0 = true := by
  induction k, q using runLoop.induct oracle with
  | case1 k => simp [runLoop, checksBalanced]
  | case2 k rest l hl ih => simp [runLoop, hl, checksBalanced, ih]
  | case3 k rest hl => simp [runLoop, hl, checksBalanced]
  | case4 k l rest ih => simp [runLoop, checksBalanced, ih]
  | case5 k rest ih => simp [runLoop, checksBalanced, ih]
  | case6 k rest => simp [runLoop, checksBalanced]

/--
As long as no check fails and no `Shutdown` is queued, the loop
eventually receives every queued event, in FIFO order (the queue is a
sublist of the received events, which also include the `Checking`
events the loop enqueues for itself when handling `Event::Updating`).
-/
theorem runLoop_consumes (oracle : Nat → CheckOutcome) (k : Nat) (q : List Event)
    (hok : oracleAllOk oracle) (hsd : Event.shutdown ∉ q) :
    List.Sublist q (consumedEvents (runLoop oracle k q).1) := by
  induction k, q using runLoop.induct oracle with
  | case1 k => simp [runLoop, consumedEvents]
  | case2 k rest l hl ih =>
    simp only [runLoop, hl, consumedEvents]
    exact List.Sublist.cons₂ _ (ih (by simp_all))
  | case3 k rest hl => exact absurd hl (hok k)
  | case4 k l rest ih =>
    simp only [runLoop, consumedEvents]
    exact List.Sublist.cons₂ _ (ih (by simp_all))
  | case5 k rest ih =>
    simp only [runLoop, consumedEvents]
    refine List.Sublist.cons₂ _
      (List.Sublist.trans (List.sublist_append_left rest [Event.checking]) (ih ?_))
    simp_all
  | case6 k rest => simp_all

/-!  ## Claims  -/

/--
Claim C1, counterexample.  The claim quantifies over *every* threshold
pair, but the loader does not enforce `warning_threshold ≤
critical_threshold`: with `warning_threshold = 10`,
`critical_threshold = 5` and a count of `5` — exactly the critical
threshold, which the claim says must be `Critical` — the code
classifies `Normal`, because the `count < warning_threshold` branch is
tested first.
-/
theorem C1_counterexample :
    classify 5 10 5 = Severity.normal ∧ classify 5 10 5 ≠ Severity.critical := by
  decide

/--
Claim C1 (amended): for every threshold pair with
`0 < warning_threshold < critical_threshold` (the defaults 25 and 100
are such a pair), the classification follows the spec's piecewise
definition for every count: `0` maps to `None`, a count strictly
between `0` and `warning_threshold` maps to `Normal`,
`warning_threshold ≤ count < critical_threshold` maps to `Warning`,
`count ≥ critical_threshold` maps to `Critical`; in particular a count
exactly equal to `warning_threshold` is `Warning` and a count exactly
equal to `critical_threshold` is `Critical`.
-/
theorem C1_classify_piecewise (n w c : Nat) (hw : 0 < w) (hwc : w < c) :
    (n = 0 → classify n w c = Severity.none)
  ∧ (0 < n → n < w → classify n w c = Severity.normal)
  ∧ (w ≤ n → n < c → classify n w c = Severity.warning)
  ∧ (c ≤ n → classify n w c = Severity.critical)
  ∧ classify w w c = Severity.warning
  ∧ classify c w c = Severity.critical := by
  unfold classify
  refine ⟨?_, ?_, ?_, ?_, ?_, ?_⟩ <;> intros <;> split_ifs <;> first | rfl | omega

/--
Claim C1, witness: the amended theorem applied to count `30` and the
default thresholds `25` and `100`.
-/
theorem C1_witness :
    0 < 25 ∧ 25 < 100
  ∧ ((30 = 0 → classify 30 25 100 = Severity.none)
    ∧ (0 < 30 → 30 < 25 → classify 30 25 100 = Severity.normal)
    ∧ (25 ≤ 30 → 30 < 100 → classify 30 25 100 = Severity.warning)
    ∧ (100 ≤ 30 → classify 30 25 100 = Severity.critical)
    ∧ classify 25 25 100 = Severity.warning
    ∧ classify 100 25 100 = Severity.critical) :=
  ⟨by decide, by decide, C1_classify_piecewise 30 25 100 (by decide) (by decide)⟩

/--
Claim C2, counterexample.  A subprocess execution that launches, emits
no output lines and terminates with a *failure* exit status
(`exit_success := false`, the `wait` call itself succeeding) makes
`check_updates` return the success value `Ok([])`, not an error: the
source discards the `ExitStatus` of `child.wait()?`, so no
exit-status-based failure exists.
-/
def abnormalExitNoOutput : ProcExec :=
  { spawn_ok := true, lines := [], wait_ok := true, exit_success := false }

/--
Claim C2, counterexample (see `abnormalExitNoOutput`): on an abnormal
termination with no output the result is `Ok([])`, a success value.
-/
theorem C2_counterexample :
    check_updates abnormalExitNoOutput = Except.ok []
  ∧ (check_updates abnormalExitNoOutput).isOk = true :=
  ⟨rfl, rfl⟩

/--
Claim C2 (amended): `check_updates` never consults the exit status —
its result is invariant under changing `exit_success` — and when the
subprocess launches, produces no output and the `wait` call succeeds,
the result is `Ok([])` whatever the exit status; the only failure the
`wait` stage can produce is an I/O failure of the `wait` call itself.
-/
theorem C2_exit_status_ignored (e : ProcExec) (b : Bool) :
    check_updates { e with exit_success := b } = check_updates e
  ∧ check_updates { spawn_ok := true, lines := [], wait_ok := true, exit_success := b }
      = Except.ok []
  ∧ check_updates { spawn_ok := true, lines := [], wait_ok := false, exit_success := b }
      = Except.error CheckError.waitFailed :=
  ⟨rfl, rfl, rfl⟩

/--
Claim C3: an execution in which the external command launches, produces
zero output lines and does not crash (the `wait` call succeeds, with
either exit status) yields the successful empty list, not an error; and
an execution in which the command cannot be launched at all yields the
spawn-failure error, whatever the rest of the record says.
-/
theorem C3_empty_output_ok :
    (∀ b : Bool,
      check_updates { spawn_ok := true, lines := [], wait_ok := true, exit_success := b }
        = Except.ok [])
  ∧ ∀ (lines : List LineRead) (w b : Bool),
      check_updates { spawn_ok := false, lines := lines, wait_ok := w, exit_success := b }
        = Except.error CheckError.spawnFailed :=
  ⟨fun _ => rfl, fun _ _ _ => rfl⟩

/--
Claim C4, counterexample.  For an accepted `Create(File)` notification
whose debounce fires, the watcher's send goes to the tray-icon sink's
channel (`watcher_gtk_tx` is a clone of `tray_icon_tx`,
`src/main.rs` line 179), not to the shared channel the event loop
consumes: the destination is `Chan.tray`, and `Chan.tray ≠ Chan.app`.
-/
theorem C4_counterexample :
    (watcherHandleEvent { last_trigger_time := 0, debounce_duration := watcherDebounceMillis }
        watcherDebounceMillis NotifyKind.createFile).2
      = some (Chan.tray, Event.updating)
  ∧ Chan.tray ≠ Chan.app := by
  decide

/--
Claim C4 (amended): for every accepted filesystem notification whose
debouncer call fires, the watcher emits `Event::Updating` on the
tray-icon sink's channel — not directly on the loop's shared channel —
and the tray sink's handler for `Event::Updating` then forwards
`Event::Updating` into the loop's shared channel, so the
database-changing signal reaches the event loop indirectly.
-/
theorem C4_watcher_emits_on_tray_channel (deb : Debouncer) (now : Nat) (kind : NotifyKind)
    (hacc : acceptedKind kind = true)
    (hfire : (deb.debounce now).1 = true) :
    (watcherHandleEvent deb now kind).2 = some (Chan.tray, Event.updating)
  ∧ trayForward Event.updating = some (Chan.app, Event.updating) := by
  constructor
  · simp [watcherHandleEvent, hacc, hfire]
  · rfl

/--
Claim C4, witness: the amended theorem at a `Create(File)` notification
arriving one full debounce interval after the debouncer's creation.
-/
theorem C4_witness :
    acceptedKind NotifyKind.createFile = true
  ∧ ((Debouncer.mk 0 watcherDebounceMillis).debounce watcherDebounceMillis).1 = true
  ∧ ((watcherHandleEvent (Debouncer.mk 0 watcherDebounceMillis) watcherDebounceMillis
        NotifyKind.createFile).2 = some (Chan.tray, Event.updating)
    ∧ trayForward Event.updating = some (Chan.app, Event.updating)) :=
  ⟨by decide, by decide,
    C4_watcher_emits_on_tray_channel (Debouncer.mk 0 watcherDebounceMillis)
      watcherDebounceMillis NotifyKind.createFile (by decide) (by decide)⟩

/--
Claim C5, counterexample.  The claim says queued events are "each
processed afterwards (none dropped)", but when the in-flight check
fails the loop breaks: with the check failing and a second `Checking`
event already queued, the loop receives only the first event and exits,
never processing the second — the queued sequence is not even a
sublist of the received events.
-/
theorem C5_counterexample :
    consumedEvents (runLoop errOracle 0 [Event.checking, Event.checking]).1 = [Event.checking]
  ∧ (runLoop errOracle 0 [Event.checking, Event.checking]).2 = LoopExit.checkFailed
  ∧ ¬ List.Sublist [Event.checking, Event.checking]
      (consumedEvents (runLoop errOracle 0 [Event.checking, Event.checking]).1) := by
  have h1 : consumedEvents (runLoop errOracle 0 [Event.checking, Event.checking]).1
      = [Event.checking] := by simp [runLoop, errOracle, consumedEvents]
  refine ⟨h1, by simp [runLoop, errOracle], ?_⟩
  rw [h1]
  intro h
  have hlen := h.length_le
  simp at hlen

/--
Claim C5 (amended): the event loop never has two check invocations in
flight at once, and — provided the checks succeed and no `Shutdown` is
among the queued events — for any events queued behind an in-progress
check, exactly one check runs in that window (the `checkBlock`), the
queued events stay in the channel (the handling of the first event
prepends its block to the trace of the untouched rest), and each of
them is processed afterwards in FIFO order; when a check fails the loop
instead terminates, leaving the queued events unprocessed (claim C8).
The single-flight discipline `checksBalanced` holds unconditionally.
-/
theorem C5_single_flight (oracle : Nat → CheckOutcome) (k : Nat) (rest : List Event)
    (l : List String)
    (hl : oracle k = CheckOutcome.ok l)
    (hok : oracleAllOk oracle)
    (hsd : Event.shutdown ∉ rest) :
    runLoop oracle k (Event.checking :: rest)
      = (checkBlock l ++ (runLoop oracle (k + 1) rest).1, (runLoop oracle (k + 1) rest).2)
  ∧ countCheckStarts (checkBlock l) = 1
  ∧ List.Sublist rest (consumedEvents (runLoop oracle (k + 1) rest).1)
  ∧ checksBalanced (runLoop oracle k (Event.checking :: rest)).1 0 = true := by
  refine ⟨?_, rfl, runLoop_consumes oracle (k + 1) rest hok hsd,
    runLoop_checksBalanced oracle k _⟩
  simp [runLoop, hl, checkBlock]

/--
Claim C5, witness: the amended theorem at the all-successful oracle
with an empty queue behind the in-progress check.
-/
theorem C5_witness :
    okEmptyOracle 0 = CheckOutcome.ok []
  ∧ oracleAllOk okEmptyOracle
  ∧ Event.shutdown ∉ ([] : List Event)
  ∧ (runLoop okEmptyOracle 0 (Event.checking :: [])
      = (checkBlock [] ++ (runLoop okEmptyOracle 1 []).1, (runLoop okEmptyOracle 1 []).2)
    ∧ countCheckStarts (checkBlock []) = 1
    ∧ List.Sublist ([] : List Event) (consumedEvents (runLoop okEmptyOracle 1 []).1)
    ∧ checksBalanced (runLoop okEmptyOracle 0 (Event.checking :: [])).1 0 = true) :=
  ⟨rfl, fun i => by simp [okEmptyOracle], by simp,
    C5_single_flight okEmptyOracle 0 [] [] rfl (fun i => by simp [okEmptyOracle]) (by simp)⟩

/--
Claim C6: `Debouncer::debounce` fires exactly when at least
`debounce_duration` (1000 ms for the watcher's instance) has elapsed
since `last_trigger_time`; on firing it sets `last_trigger_time` to the
current time, and when suppressed it leaves the struct unchanged.
Consequently, whenever a call at `t0` fires, a call at `t0 + d/2` is
suppressed without mutating the state and a call at `t0 + d` fires
again.
-/
theorem C6_debounce_fire_iff (last now : Nat) :
    (((Debouncer.mk last watcherDebounceMillis).debounce now).1 = true
      ↔ watcherDebounceMillis ≤ now - last)
  ∧ (((Debouncer.mk last watcherDebounceMillis).debounce now).1 = true →
      ((Debouncer.mk last watcherDebounceMillis).debounce now).2
        = Debouncer.mk now watcherDebounceMillis)
  ∧ (((Debouncer.mk last watcherDebounceMillis).debounce now).1 = false →
      ((Debouncer.mk last watcherDebounceMillis).debounce now).2
        = Debouncer.mk last watcherDebounceMillis)
  ∧ (watcherDebounceMillis ≤ now - last →
      ((Debouncer.mk last watcherDebounceMillis).debounce now).1 = true
    ∧ ((Debouncer.mk now watcherDebounceMillis).debounce
          (now + watcherDebounceMillis / 2)).1 = false
    ∧ ((Debouncer.mk now watcherDebounceMillis).debounce
          (now + watcherDebounceMillis / 2)).2 = Debouncer.mk now watcherDebounceMillis
    ∧ ((Debouncer.mk now watcherDebounceMillis).debounce
          (now + watcherDebounceMillis)).1 = true) := by
  unfold Debouncer.debounce watcherDebounceMillis
  refine ⟨?_, ?_, ?_, fun h => ⟨?_, ?_, ?_, ?_⟩⟩ <;>
    split_ifs <;> simp_all

/--
Claim C6, witness: a debouncer last fired at time 0; a call at 1000 ms
fires, a call at 1500 ms is suppressed leaving the state unchanged, and
a call at 2000 ms fires again.
-/
theorem C6_witness :
    ((Debouncer.mk 0 watcherDebounceMillis).debounce 1000).1 = true
  ∧ ((Debouncer.mk 1000 watcherDebounceMillis).debounce 1500).1 = false
  ∧ ((Debouncer.mk 1000 watcherDebounceMillis).debounce 1500).2
      = Debouncer.mk 1000 watcherDebounceMillis
  ∧ ((Debouncer.mk 1000 watcherDebounceMillis).debounce 2000).1 = true := by
  have h := (C6_debounce_fire_iff 0 1000).2.2.2 (by decide)
  exact ⟨h.1, h.2.1, h.2.2.1, h.2.2.2⟩

/--
Claim C7: when the loop receives `Event::Updating` it sleeps the fixed
5-second settle delay, then sends exactly one `Event::Checking` back
into its own channel (appending it behind whatever is already queued),
and that event, once reached, triggers a normal check cycle — with an
otherwise empty queue the trace is exactly the settle block followed by
one ordinary `checkBlock`, with one enqueue and one check start.
-/
theorem C7_settle_then_check (oracle : Nat → CheckOutcome) (k : Nat) (rest : List Event)
    (l : List String) (hl : oracle k = CheckOutcome.ok l) :
    runLoop oracle k (Event.updating :: rest)
      = (LoopAction.recv Event.updating :: LoopAction.sleep settleDelaySeconds ::
          LoopAction.enqueue Event.checking :: (runLoop oracle k (rest ++ [Event.checking])).1,
         (runLoop oracle k (rest ++ [Event.checking])).2)
  ∧ settleDelaySeconds = 5
  ∧ runLoop oracle k [Event.updating]
      = ([LoopAction.recv Event.updating, LoopAction.sleep settleDelaySeconds,
          LoopAction.enqueue Event.checking] ++ checkBlock l, LoopExit.blockedEmpty)
  ∧ countEnqueues (runLoop oracle k [Event.updating]).1 = 1
  ∧ countCheckStarts (runLoop oracle k [Event.updating]).1 = 1 := by
  refine ⟨?_, rfl, ?_, ?_, ?_⟩
  · simp [runLoop]
  · simp [runLoop, hl, checkBlock]
  · simp [runLoop, hl, countEnqueues]
  · simp [runLoop, hl, countCheckStarts]

/--
Claim C7, witness: the theorem at the all-successful empty-list oracle
with nothing else queued.
-/
theorem C7_witness :
    okEmptyOracle 0 = CheckOutcome.ok []
  ∧ (runLoop okEmptyOracle 0 (Event.updating :: [])
      = (LoopAction.recv Event.updating :: LoopAction.sleep settleDelaySeconds ::
          LoopAction.enqueue Event.checking :: (runLoop okEmptyOracle 0 [Event.checking]).1,
         (runLoop okEmptyOracle 0 [Event.checking]).2)
    ∧ settleDelaySeconds = 5
    ∧ runLoop okEmptyOracle 0 [Event.updating]
        = ([LoopAction.recv Event.updating, LoopAction.sleep settleDelaySeconds,
            LoopAction.enqueue Event.checking] ++ checkBlock [], LoopExit.blockedEmpty)
    ∧ countEnqueues (runLoop okEmptyOracle 0 [Event.updating]).1 = 1
    ∧ countCheckStarts (runLoop okEmptyOracle 0 [Event.updating]).1 = 1) :=
  ⟨rfl, C7_settle_then_check okEmptyOracle 0 [] [] rfl⟩

/--
Claim C8: when `check_updates` returns an error while the loop handles
a `Checking` event, the loop logs the error and breaks out — the trace
is the failed-check block whatever else is queued, the loop exits with
`checkFailed`, and the checker is invoked exactly once (no retry).
-/
theorem C8_check_failure_fatal (oracle : Nat → CheckOutcome) (k : Nat) (rest : List Event)
    (hl : oracle k = CheckOutcome.err) :
    runLoop oracle k (Event.checking :: rest) = (errBlock, LoopExit.checkFailed)
  ∧ countCheckStarts errBlock = 1
  ∧ consumedEvents errBlock = [Event.checking] := by
  refine ⟨?_, rfl, rfl⟩
  simp [runLoop, hl, errBlock]

/--
Claim C8, witness: the theorem at the always-failing oracle with a
further `Checking` event queued — still exactly one check runs.
-/
theorem C8_witness :
    errOracle 0 = CheckOutcome.err
  ∧ (runLoop errOracle 0 (Event.checking :: [Event.checking])
      = (errBlock, LoopExit.checkFailed)
    ∧ countCheckStarts errBlock = 1
    ∧ consumedEvents errBlock = [Event.checking]) :=
  ⟨rfl, C8_check_failure_fatal errOracle 0 [Event.checking] rfl⟩

/--
Claim C9: whatever the check oracle and whatever events are queued
behind it, receiving `Shutdown` makes the loop break immediately: the
trace is just the receive and the exit, no check starts, and `Shutdown`
is the only event ever received — the queued events behind it are never
processed.
-/
theorem C9_shutdown_stops_loop (oracle : Nat → CheckOutcome) (k : Nat) (rest : List Event) :
    runLoop oracle k (Event.shutdown :: rest)
      = ([LoopAction.recv Event.shutdown, LoopAction.exitLoop], LoopExit.shutdownExit)
  ∧ countCheckStarts (runLoop oracle k (Event.shutdown :: rest)).1 = 0
  ∧ consumedEvents (runLoop oracle k (Event.shutdown :: rest)).1 = [Event.shutdown] := by
  refine ⟨?_, ?_, ?_⟩ <;> simp [runLoop, countCheckStarts, consumedEvents]

/--
Claim C10: at startup, after spawning the producer threads, `main`
sends one `Event::Checking` into the shared channel (`src/main.rs`
line 219) before entering the loop, so the loop's initial queue is
exactly `[Checking]` and the first check runs immediately — consuming
the startup queue alone already performs exactly one full check cycle,
with no timer tick or filesystem event needed.
-/
theorem C10_startup_check (oracle : Nat → CheckOutcome) (l : List String)
    (hl : oracle 0 = CheckOutcome.ok l) :
    startupQueue = [Event.checking]
  ∧ runLoop oracle 0 startupQueue = (checkBlock l, LoopExit.blockedEmpty)
  ∧ countCheckStarts (runLoop oracle 0 startupQueue).1 = 1 := by
  refine ⟨rfl, ?_, ?_⟩
  · simp [startupQueue, runLoop, hl, checkBlock]
  · simp [startupQueue, runLoop, hl, countCheckStarts]

/-- Claim C10, witness: the theorem at the all-successful empty-list oracle. -/
theorem C10_witness :
    okEmptyOracle 0 = CheckOutcome.ok []
  ∧ (startupQueue = [Event.checking]
    ∧ runLoop okEmptyOracle 0 startupQueue = (checkBlock [], LoopExit.blockedEmpty)
    ∧ countCheckStarts (runLoop okEmptyOracle 0 startupQueue).1 = 1) :=
  ⟨rfl, C10_startup_check okEmptyOracle [] rfl⟩
